import Mathlib

/-!
Verification of the statistical decision logic of `RenewalAnalysis.py`, the
A/B-test renewal-analysis script.  The script loads a table of customer
records (`Customer_ID`, `Test_Group`, `Renewal_Status`, `Discounted_ARR`),
checks group balance, computes per-group descriptive statistics, runs a
pooled two-proportion z-test and Welch's t-test, and synthesizes a final
business recommendation from the two significance flags and the raw group
values.

The development below is a shallow embedding of that script:

* exact rational arithmetic (`ℚ`) stands in for Python floats;
* the pandas lookups that can raise `KeyError` (`value_counts()['A']`,
  `grouped_stats.loc['A', ...]`) are modelled as `Option`/`Except` values,
  with an uncaught `KeyError` modelled as a `crash` outcome, since the
  script installs no handler for it;
* the numeric cumulative distribution functions supplied by
  statsmodels/SciPy (standard normal for the z-test, Student's t for the
  t-test) are not part of the script's own code, so theorems about
  p-values are parametrised by the CDF together with the standard numeric
  facts about it that the statement needs;
* the z-statistic and t-statistic involve a real square root, so theorems
  about them take the standard error `se : ℝ` together with the defining
  equations `0 ≤ se` and `se ^ 2 = ...` as hypotheses.
-/

namespace RenewalAnalysis

/-- Significance level, line 7 of the script: `ALPHA = 0.05`. -/
def ALPHA : ℚ := 1 / 20

/-- Label of the control group in the `Test_Group` column. -/
def labelA : String := "A"

/-- Label of the treatment group in the `Test_Group` column. -/
def labelB : String := "B"

/-- One row of the data file: `Customer_ID`, `Test_Group`, `Renewal_Status`
(0 or 1, held as a rational), `Discounted_ARR`. -/
structure Record where
  customer_id : Nat
  test_group : String
  renewal_status : ℚ
  discounted_arr : ℚ
  deriving DecidableEq

/-- Rows of one group: `df[df['Test_Group'] == g]`. -/
def groupRecords (df : List Record) (g : String) : List Record :=
  df.filter (fun r => r.test_group == g)

/-- Lookup `df['Test_Group'].value_counts()[g]`.  A pandas `value_counts`
series has no entry for a label with zero rows, so the lookup raises
`KeyError` exactly then; this is modelled as `none`. -/
def value_counts (df : List Record) (g : String) : Option Nat :=
  if (groupRecords df g).length = 0 then none
  else some (groupRecords df g).length

/-- Runtime failures of the script after the data file has loaded.  The
script installs no handler for `KeyError`, so raising one aborts the run
with a traceback. -/
inductive ScriptError where
  | keyError (key : String)
  deriving DecidableEq

/-- Imbalance predicate of line 32:
`abs(group_counts['A'] - group_counts['B']) / total_obs > 0.05`. -/
def balanceExceeds (cA cB total : Nat) : Bool :=
  decide ((|(cA : ℚ) - (cB : ℚ)| / (total : ℚ)) > 1 / 20)

/-- Balance check of lines 31–33.  Python evaluates `total_obs > 0` first
(short-circuiting `and`), then `group_counts['A']`, then
`group_counts['B']`; either lookup may raise `KeyError`.  The result `Bool`
records whether the advisory warning is printed. -/
def balanceCheck (df : List Record) : Except ScriptError Bool :=
  if 0 < df.length then
    match value_counts df labelA with
    | none => .error (.keyError labelA)
    | some cA =>
      match value_counts df labelB with
      | none => .error (.keyError labelB)
      | some cB => .ok (balanceExceeds cA cB df.length)
  else .ok false

/-- Mean of a numeric column (pandas `mean`). -/
def listMean (xs : List ℚ) : ℚ := xs.sum / (xs.length : ℚ)

/-- Bessel-corrected sample variance (`n - 1` in the denominator); pandas
`std` is its square root and is used by the script for display only. -/
def sampleVar (xs : List ℚ) : ℚ :=
  ((xs.map (fun x => (x - listMean xs) ^ 2)).sum) / ((xs.length : ℚ) - 1)

/-- Per-group descriptive statistics of lines 43–48.  The source stores
`Std_Discounted_ARR`, the square root of `var_discounted_arr`; the
variance is kept here because the square root is irrational and the field
is display-only. -/
structure GroupSummary where
  total_customers : Nat
  renewal_rate : ℚ
  avg_discounted_arr : ℚ
  var_discounted_arr : ℚ
  deriving DecidableEq

/-- Row lookup `grouped_stats.loc[g, ...]` of lines 51–54: a label with no
rows is absent from the groupby result, so the lookup raises `KeyError`. -/
def summarize (df : List Record) (g : String) : Except ScriptError GroupSummary :=
  if (groupRecords df g).length = 0 then .error (.keyError g)
  else .ok ⟨(groupRecords df g).length,
    listMean ((groupRecords df g).map (fun r => r.renewal_status)),
    listMean ((groupRecords df g).map (fun r => r.discounted_arr)),
    sampleVar ((groupRecords df g).map (fun r => r.discounted_arr))⟩

/-- Everything the deterministic part of the script computes before the
two hypothesis tests: the balance-warning flag, both group summaries and
the extracted test inputs of lines 73–76 and 109–110. -/
structure Report where
  warn : Bool
  summaryA : GroupSummary
  summaryB : GroupSummary
  renewals_A : ℚ
  nobs_A : Nat
  renewals_B : ℚ
  nobs_B : Nat
  arr_A : List ℚ
  arr_B : List ℚ
  deriving DecidableEq

/-- Outcome of running the script on a loaded dataframe: either it reaches
the tests with a `Report`, or it aborts on an uncaught exception. -/
inductive Outcome where
  | finished (r : Report)
  | crash (e : ScriptError)
  deriving DecidableEq

/-- The deterministic pipeline of the script in source order: balance check
(lines 27–33), then the group summaries (lines 43–54, `'A'` before `'B'`),
then extraction of the test inputs.  The first uncaught `KeyError` aborts
the run. -/
def runScript (df : List Record) : Outcome :=
  match balanceCheck df with
  | .error e => .crash e
  | .ok warn =>
    match summarize df labelA with
    | .error e => .crash e
    | .ok sA =>
      match summarize df labelB with
      | .error e => .crash e
      | .ok sB =>
        .finished ⟨warn, sA, sB,
          ((groupRecords df labelA).map (fun r => r.renewal_status)).sum,
          (groupRecords df labelA).length,
          ((groupRecords df labelB).map (fun r => r.renewal_status)).sum,
          (groupRecords df labelB).length,
          (groupRecords df labelA).map (fun r => r.discounted_arr),
          (groupRecords df labelB).map (fun r => r.discounted_arr)⟩

/-- Pooled proportion of the two-sample z-test,
`(k_A + k_B) / (n_A + n_B)`, as computed inside the
`proportions_ztest(count=[renewals_A, renewals_B], nobs=[nobs_A, nobs_B])`
call on lines 85–88. -/
def pooledProp (k1 k2 n1 n2 : ℚ) : ℚ := (k1 + k2) / (n1 + n2)

/-- Square of the pooled standard error of the z-test,
`pbar * (1 - pbar) * (1/n_A + 1/n_B)`. -/
def pooledSE2 (k1 k2 n1 n2 : ℚ) : ℚ :=
  pooledProp k1 k2 n1 n2 * (1 - pooledProp k1 k2 n1 n2) * (1 / n1 + 1 / n2)

/-- Difference of the sample proportions, the numerator of the z-statistic. -/
def propDiff (k1 k2 n1 n2 : ℚ) : ℚ := k1 / n1 - k2 / n2

/-- Two-sided p-value `2 * (1 - cdf |stat|)`; the reference distribution's
CDF is a parameter because the script obtains it from statsmodels/SciPy. -/
def twoSidedP {K : Type} [LinearOrderedField K] (cdf : K → K) (stat : K) : K :=
  2 * (1 - cdf |stat|)

/-- Square of the unpooled standard error of Welch's t-test,
`s_A^2/n_A + s_B^2/n_B`, as computed inside
`stats.ttest_ind(arr_A, arr_B, equal_var=False)` on lines 122–126. -/
def welchSE2 (xs ys : List ℚ) : ℚ :=
  sampleVar xs / (xs.length : ℚ) + sampleVar ys / (ys.length : ℚ)

/-- Welch–Satterthwaite degrees of freedom of the unequal-variance t-test,
`SE^4 / ((s_A^2/n_A)^2/(n_A-1) + (s_B^2/n_B)^2/(n_B-1))`. -/
def welch_df (xs ys : List ℚ) : ℚ :=
  (welchSE2 xs ys) ^ 2 /
    ((sampleVar xs / (xs.length : ℚ)) ^ 2 / ((xs.length : ℚ) - 1) +
      (sampleVar ys / (ys.length : ℚ)) ^ 2 / ((ys.length : ℚ) - 1))

/-- Line 141: `renewal_is_significant = p_value_prop < ALPHA`. -/
def renewal_is_significant (pValueProp alpha : ℚ) : Bool :=
  decide (pValueProp < alpha)

/-- Line 142: `arr_is_significant = p_value_arr < ALPHA`. -/
def arr_is_significant (pValueArr alpha : ℚ) : Bool :=
  decide (pValueArr < alpha)

/-- Line 94: the z-test step's own dynamic conclusion prints "REJECT"
exactly when `p_value_prop < ALPHA`. -/
def ztest_conclusion_rejects (pValueProp alpha : ℚ) : Bool :=
  decide (pValueProp < alpha)

/-- Line 132: the t-test step's own dynamic conclusion prints "REJECT"
exactly when `p_value_arr < ALPHA`. -/
def ttest_conclusion_rejects (pValueArr alpha : ℚ) : Bool :=
  decide (pValueArr < alpha)

/-- The five shapes the final recommendation of lines 151–187 can take. -/
inductive Category where
  | bothWinnerA
  | bothWinnerB
  | mixedWinners
  | onlyOneSignificant
  | neither
  deriving DecidableEq

/-- Structured content of the final recommendation: its category and, in
the only-one-significant branch, the per-metric winner labels the script
prints (lines 170–180). -/
structure FinalCall where
  category : Category
  renewalWinner : Option String
  arrWinner : Option String
  deriving DecidableEq

/-- Winner selection of lines 171 and 177: `'A' if x > y else 'B'`. -/
def pickWinner (x y : ℚ) : String := if x > y then labelA else labelB

/-- Final business interpretation, lines 141–187: nested conditionals over
the two significance flags and the raw group values. -/
def finalInterpretation (pProp pArr alpha rA rB aA aB : ℚ) : FinalCall :=
  if renewal_is_significant pProp alpha && arr_is_significant pArr alpha then
    if rA > rB ∧ aA > aB then ⟨.bothWinnerA, none, none⟩
    else if rB > rA ∧ aB > aA then ⟨.bothWinnerB, none, none⟩
    else ⟨.mixedWinners, none, none⟩
  else if renewal_is_significant pProp alpha || arr_is_significant pArr alpha then
    ⟨.onlyOneSignificant,
      if renewal_is_significant pProp alpha then some (pickWinner rA rB) else none,
      if arr_is_significant pArr alpha then some (pickWinner aA aB) else none⟩
  else ⟨.neither, none, none⟩

/-- A one-row dataset whose only record is in group `A`. -/
def dfOnlyA : List Record := [⟨1, labelA, 1, 100⟩]

/-- A balanced two-row dataset with one record in each group. -/
def dfPair : List Record := [⟨1, labelA, 1, 100⟩, ⟨2, labelB, 0, 90⟩]

/-- C5: each test's significance flag is the strict comparison
`p-value < α` with the threshold `α` passed in rather than baked into the
verdict logic; a p-value exactly equal to `α` is not significant, and the
script's configured default is `ALPHA = 0.05`. -/
theorem c5_significance_flag_is_strict_threshold (p q a : ℚ) :
    (renewal_is_significant p a = true ↔ p < a) ∧
    (arr_is_significant q a = true ↔ q < a) ∧
    renewal_is_significant a a = false ∧
    arr_is_significant a a = false ∧
    ALPHA = 1 / 20 := by
  refine ⟨?_, ?_, ?_, ?_, rfl⟩ <;>
    simp [renewal_is_significant, arr_is_significant]

/-- C10: the per-test dynamic conclusions printed by the z-test and t-test
steps (lines 94 and 132) are the same predicate as the significance flags
the final verdict synthesis reuses (lines 141–142): evaluated on the same
p-value and the same `α`, they always agree. -/
theorem c10_step_conclusions_agree_with_verdict_flags (p q a : ℚ) :
    ztest_conclusion_rejects p a = renewal_is_significant p a ∧
    ttest_conclusion_rejects q a = arr_is_significant q a :=
  ⟨rfl, rfl⟩

/-- C1 counterexample: with the renewal test significant (p-value 0, below
`ALPHA`), the ARR test not significant (p-value 1), and the two raw renewal
rates exactly equal (both 1), the script does not report a tie — line 171
names group `B` as the winner (the `else` arm of a strict comparison). -/
theorem c1_counterexample_equal_rates_name_B :
    (finalInterpretation 0 1 ALPHA 1 1 5 5).renewalWinner = some labelB ∧
    (finalInterpretation 0 1 ALPHA 1 1 5 5).category = .onlyOneSignificant := by
  have h1 : renewal_is_significant 0 ALPHA = true := by
    norm_num [renewal_is_significant, ALPHA]
  have h2 : arr_is_significant 1 ALPHA = false := by
    norm_num [arr_is_significant, ALPHA]
  unfold finalInterpretation
  rw [h1, h2]
  refine ⟨?_, ?_⟩ <;> simp [pickWinner]

/-- C1 amended: when a directional winner must be named but the raw values
are exactly equal, the script never raises (the interpretation function is
total) but it does not report a tie: in the one-significant branches the
strict comparison's `else` arm names group `B`, and in the both-significant
branch an exact tie falls through to the mixed-winners message. -/
theorem c1_amended_equal_values_pick_group_B (pProp pArr a r v : ℚ) :
    (renewal_is_significant pProp a = true → arr_is_significant pArr a = false →
      finalInterpretation pProp pArr a r r v v =
        ⟨.onlyOneSignificant, some labelB, none⟩) ∧
    (renewal_is_significant pProp a = false → arr_is_significant pArr a = true →
      finalInterpretation pProp pArr a r r v v =
        ⟨.onlyOneSignificant, none, some labelB⟩) ∧
    (renewal_is_significant pProp a = true → arr_is_significant pArr a = true →
      (finalInterpretation pProp pArr a r r v v).category = .mixedWinners) := by
  refine ⟨fun h1 h2 => ?_, fun h1 h2 => ?_, fun h1 h2 => ?_⟩ <;>
    simp [finalInterpretation, h1, h2, pickWinner, lt_irrefl]

/-- C2: when both tests are significant but the directional winners differ
(the group with the higher raw renewal rate is not the group with the
higher raw average ARR), the final recommendation is the mixed-winners
category — a stakeholder tie-break — and no single group's strategy is
silently recommended. -/
theorem c2_conflicting_winners_not_silently_resolved
    (pProp pArr a rA rB aA aB : ℚ)
    (hp : pProp < a) (hq : pArr < a)
    (hw : (rB < rA ∧ aA < aB) ∨ (rA < rB ∧ aB < aA)) :
    (finalInterpretation pProp pArr a rA rB aA aB).category = .mixedWinners ∧
    (finalInterpretation pProp pArr a rA rB aA aB).category ≠ .bothWinnerA ∧
    (finalInterpretation pProp pArr a rA rB aA aB).category ≠ .bothWinnerB := by
  have h1 : renewal_is_significant pProp a = true := by
    simp [renewal_is_significant, hp]
  have h2 : arr_is_significant pArr a = true := by
    simp [arr_is_significant, hq]
  have hc1 : ¬(rA > rB ∧ aA > aB) := by
    rcases hw with ⟨h3, h4⟩ | ⟨h3, h4⟩
    · exact fun h => lt_asymm h4 h.2
    · exact fun h => lt_asymm h3 h.1
  have hc2 : ¬(rB > rA ∧ aB > aA) := by
    rcases hw with ⟨h3, h4⟩ | ⟨h3, h4⟩
    · exact fun h => lt_asymm h3 h.1
    · exact fun h => lt_asymm h4 h.2
  have hmix : finalInterpretation pProp pArr a rA rB aA aB =
      ⟨.mixedWinners, none, none⟩ := by
    unfold finalInterpretation
    rw [h1, h2]
    simp [hc1, hc2]
  rw [hmix]
  exact ⟨rfl, by decide, by decide⟩

/-- Witness for C2 at a concrete input: both p-values 0 (below `ALPHA`),
group A ahead on renewal rate (2 vs 1), group B ahead on average ARR
(20 vs 10). -/
theorem c2_conflicting_winners_witness :
    (finalInterpretation 0 0 ALPHA 2 1 10 20).category = .mixedWinners ∧
    (finalInterpretation 0 0 ALPHA 2 1 10 20).category ≠ .bothWinnerA ∧
    (finalInterpretation 0 0 ALPHA 2 1 10 20).category ≠ .bothWinnerB :=
  c2_conflicting_winners_not_silently_resolved 0 0 ALPHA 2 1 10 20
    (by norm_num [ALPHA]) (by norm_num [ALPHA])
    (Or.inl ⟨by norm_num, by norm_num⟩)

/-- C6: for a dataset containing records of both groups, the pipeline runs
to completion (the warning is advisory, never fatal) and the balance
warning fires exactly when the absolute difference of the two group counts
exceeds 5% of the total record count. -/
theorem c6_balance_warning_iff_over_five_percent
    (df : List Record)
    (hA : 0 < (groupRecords df labelA).length)
    (hB : 0 < (groupRecords df labelB).length) :
    ∃ rep : Report, runScript df = .finished rep ∧
      (rep.warn = true ↔
        (df.length : ℚ) * (5 / 100) <
          |((groupRecords df labelA).length : ℚ) -
            ((groupRecords df labelB).length : ℚ)|) := by
  have hA0 : (groupRecords df labelA).length ≠ 0 := Nat.pos_iff_ne_zero.mp hA
  have hB0 : (groupRecords df labelB).length ≠ 0 := Nat.pos_iff_ne_zero.mp hB
  have hlen : 0 < df.length := by
    have h := List.length_filter_le (fun r => r.test_group == labelA) df
    have hA' : 0 < (df.filter (fun r => r.test_group == labelA)).length := hA
    omega
  have hbal : balanceCheck df =
      .ok (balanceExceeds (groupRecords df labelA).length
        (groupRecords df labelB).length df.length) := by
    unfold balanceCheck value_counts
    rw [if_pos hlen, if_neg hA0, if_neg hB0]
  obtain ⟨sA, hsA⟩ : ∃ s, summarize df labelA = .ok s := by
    unfold summarize
    rw [if_neg hA0]
    exact ⟨_, rfl⟩
  obtain ⟨sB, hsB⟩ : ∃ s, summarize df labelB = .ok s := by
    unfold summarize
    rw [if_neg hB0]
    exact ⟨_, rfl⟩
  have hiff : balanceExceeds (groupRecords df labelA).length
      (groupRecords df labelB).length df.length = true ↔
      (df.length : ℚ) * (5 / 100) <
        |((groupRecords df labelA).length : ℚ) -
          ((groupRecords df labelB).length : ℚ)| := by
    unfold balanceExceeds
    rw [decide_eq_true_eq]
    have hq : (0 : ℚ) < (df.length : ℚ) := by exact_mod_cast hlen
    rw [gt_iff_lt, lt_div_iff₀ hq]
    constructor <;> intro h <;> linarith
  unfold runScript
  rw [hbal, hsA, hsB]
  exact ⟨_, rfl, hiff⟩

/-- Witness for C6: the two-row balanced dataset completes the pipeline
with the warning off, and the spec's scenario-4 counts behave as claimed:
52 vs 48 of 100 does not warn (4%), 53 vs 47 of 100 warns (6%). -/
theorem c6_balance_warning_witness :
    ((0 < (groupRecords dfPair labelA).length) ∧
      (0 < (groupRecords dfPair labelB).length) ∧
      balanceExceeds 52 48 100 = false ∧
      balanceExceeds 53 47 100 = true) ∧
    (∃ rep : Report, runScript dfPair = .finished rep ∧
      (rep.warn = true ↔
        (dfPair.length : ℚ) * (5 / 100) <
          |((groupRecords dfPair labelA).length : ℚ) -
            ((groupRecords dfPair labelB).length : ℚ)|)) :=
  ⟨⟨by decide, by decide,
      by simp only [balanceExceeds, decide_eq_false_iff_not]; norm_num,
      by simp only [balanceExceeds, decide_eq_true_eq]; norm_num⟩,
    c6_balance_warning_iff_over_five_percent dfPair (by decide) (by decide)⟩

/-- C7 counterexample: on a dataset whose only record is in group `A`, the
script does not surface a structured data error — it aborts with the
uncaught pandas `KeyError` for the missing key `'B'`, raised inside the
balance check of line 32. -/
theorem c7_counterexample_only_A_crashes :
    runScript dfOnlyA = .crash (.keyError labelB) := by
  rfl

/-- C7 amended: when one of the two recognized groups has zero records
(here: every record in group `A`), the run does fail before any group
summary is computed — the failure point is the balance check of line 32 —
but as an uncaught `KeyError` traceback, not as a structured, recoverable
data error surfaced to a caller. -/
theorem c7_amended_missing_group_is_uncaught_keyerror
    (df : List Record) (hne : df ≠ [])
    (hall : ∀ r ∈ df, r.test_group = labelA) :
    balanceCheck df = .error (.keyError labelB) ∧
    runScript df = .crash (.keyError labelB) := by
  have hlen : 0 < df.length := List.length_pos.mpr hne
  have hBnil : groupRecords df labelB = [] := by
    simp only [groupRecords, List.filter_eq_nil_iff]
    intro r hr
    simp [hall r hr, labelA, labelB]
  have hB : (groupRecords df labelB).length = 0 := by
    rw [hBnil]
    rfl
  have hA : (groupRecords df labelA).length ≠ 0 := by
    obtain ⟨r, hr⟩ := List.exists_mem_of_ne_nil df hne
    have hmem : r ∈ groupRecords df labelA := by
      simp [groupRecords, List.mem_filter, hr, hall r hr]
    intro h0
    rw [List.length_eq_zero] at h0
    rw [h0] at hmem
    exact List.not_mem_nil r hmem
  have hbal : balanceCheck df = .error (.keyError labelB) := by
    unfold balanceCheck value_counts
    rw [if_pos hlen, if_neg hA, if_pos hB]
  refine ⟨hbal, ?_⟩
  unfold runScript
  rw [hbal]

/-- Witness for the amended C7 at the concrete one-row dataset. -/
theorem c7_amended_keyerror_witness :
    balanceCheck dfOnlyA = .error (.keyError labelB) ∧
    runScript dfOnlyA = .crash (.keyError labelB) :=
  c7_amended_missing_group_is_uncaught_keyerror dfOnlyA (by decide) (by decide)

/-- Group A's `Discounted_ARR` column in the spec's scenario 2. -/
def groupA_arr : List ℚ := [100, 102, 98, 101, 99]

/-- Group B's `Discounted_ARR` column in the spec's scenario 2. -/
def groupB_arr : List ℚ := [110, 108, 112, 109, 111]

/-- C3: on success counts 8 of 10 vs 5 of 10 the pooled two-proportion
z-test of lines 85–88 reproduces pooled proportion 0.65, pooled standard
error strictly between 0.2133 and 0.2134, z strictly between 1.406 and
1.407, and a two-sided p-value strictly between 0.15 and 0.17 — not
significant at `ALPHA = 0.05`.  The z-statistic is characterised by its
defining equation (`z > 0` and `z² · SE² = (p̂A − p̂B)²`) and the p-value is
stated for any monotone CDF `Phi` satisfying the standard normal values
`Phi(1.406) ≥ 0.919` and `Phi(1.407) ≤ 0.921`. -/
theorem c3_scenario1_proportion_ztest (z : ℝ) (Phi : ℝ → ℝ)
    (hz0 : 0 < z)
    (hz2 : z ^ 2 * ((pooledSE2 8 5 10 10 : ℚ) : ℝ) = ((propDiff 8 5 10 10 : ℚ) : ℝ) ^ 2)
    (hmono : Monotone Phi)
    (hlo : (919 / 1000 : ℝ) ≤ Phi (1406 / 1000))
    (hhi : Phi (1407 / 1000) ≤ (921 / 1000 : ℝ)) :
    pooledProp 8 5 10 10 = 13 / 20 ∧
    pooledSE2 8 5 10 10 = 91 / 2000 ∧
    ((2133 / 10000 : ℝ) < Real.sqrt ((pooledSE2 8 5 10 10 : ℚ) : ℝ) ∧
      Real.sqrt ((pooledSE2 8 5 10 10 : ℚ) : ℝ) < (2134 / 10000 : ℝ)) ∧
    ((1406 / 1000 : ℝ) < z ∧ z < (1407 / 1000 : ℝ)) ∧
    ((15 / 100 : ℝ) < twoSidedP Phi z ∧ twoSidedP Phi z < (17 / 100 : ℝ)) ∧
    ¬ twoSidedP Phi z < ((ALPHA : ℚ) : ℝ) := by
  have hse : pooledSE2 8 5 10 10 = 91 / 2000 := by
    norm_num [pooledSE2, pooledProp]
  have hpd : propDiff 8 5 10 10 = 3 / 10 := by
    norm_num [propDiff]
  have hseR : ((pooledSE2 8 5 10 10 : ℚ) : ℝ) = 91 / 2000 := by
    rw [hse]
    norm_num
  have hpdR : ((propDiff 8 5 10 10 : ℚ) : ℝ) = 3 / 10 := by
    rw [hpd]
    norm_num
  have hz2q : z ^ 2 = 180 / 91 := by
    rw [hseR, hpdR] at hz2
    nlinarith [hz2]
  have hzlo : (1406 / 1000 : ℝ) < z := by
    by_contra h
    push_neg at h
    nlinarith [hz2q, hz0, h]
  have hzhi : z < (1407 / 1000 : ℝ) := by
    by_contra h
    push_neg at h
    nlinarith [hz2q, hz0, h]
  have hs1 : (2133 / 10000 : ℝ) < Real.sqrt ((pooledSE2 8 5 10 10 : ℚ) : ℝ) := by
    rw [hseR]
    exact (Real.lt_sqrt (by norm_num)).mpr (by norm_num)
  have hs2 : Real.sqrt ((pooledSE2 8 5 10 10 : ℚ) : ℝ) < (2134 / 10000 : ℝ) := by
    rw [hseR]
    exact (Real.sqrt_lt' (by norm_num)).mpr (by norm_num)
  have habs : |z| = z := abs_of_pos hz0
  have hPhiLo : (919 / 1000 : ℝ) ≤ Phi z := le_trans hlo (hmono hzlo.le)
  have hPhiHi : Phi z ≤ (921 / 1000 : ℝ) := le_trans (hmono hzhi.le) hhi
  have hplo : (15 / 100 : ℝ) < twoSidedP Phi z := by
    unfold twoSidedP
    rw [habs]
    linarith
  have hphi : twoSidedP Phi z < (17 / 100 : ℝ) := by
    unfold twoSidedP
    rw [habs]
    linarith
  have hns : ¬ twoSidedP Phi z < ((ALPHA : ℚ) : ℝ) := by
    unfold twoSidedP
    rw [habs, not_lt]
    have hA : ((ALPHA : ℚ) : ℝ) = 1 / 20 := by norm_num [ALPHA]
    rw [hA]
    linarith
  exact ⟨by norm_num [pooledProp], hse, ⟨hs1, hs2⟩, ⟨hzlo, hzhi⟩, ⟨hplo, hphi⟩, hns⟩

/-- Witness for C3: the z-statistic `√(180/91)` satisfies the defining
equation, and the constant CDF `0.92` satisfies the numeric hypotheses. -/
theorem c3_scenario1_witness :
    pooledProp 8 5 10 10 = 13 / 20 ∧
    pooledSE2 8 5 10 10 = 91 / 2000 ∧
    ((2133 / 10000 : ℝ) < Real.sqrt ((pooledSE2 8 5 10 10 : ℚ) : ℝ) ∧
      Real.sqrt ((pooledSE2 8 5 10 10 : ℚ) : ℝ) < (2134 / 10000 : ℝ)) ∧
    ((1406 / 1000 : ℝ) < Real.sqrt (180 / 91) ∧
      Real.sqrt (180 / 91) < (1407 / 1000 : ℝ)) ∧
    ((15 / 100 : ℝ) < twoSidedP (fun _ => (92 / 100 : ℝ)) (Real.sqrt (180 / 91)) ∧
      twoSidedP (fun _ => (92 / 100 : ℝ)) (Real.sqrt (180 / 91)) < (17 / 100 : ℝ)) ∧
    ¬ twoSidedP (fun _ => (92 / 100 : ℝ)) (Real.sqrt (180 / 91)) < ((ALPHA : ℚ) : ℝ) :=
  c3_scenario1_proportion_ztest (Real.sqrt (180 / 91)) (fun _ => (92 / 100 : ℝ))
    (Real.sqrt_pos.mpr (by norm_num))
    (by
      have hse : pooledSE2 8 5 10 10 = 91 / 2000 := by
        norm_num [pooledSE2, pooledProp]
      have hpd : propDiff 8 5 10 10 = 3 / 10 := by
        norm_num [propDiff]
      rw [Real.sq_sqrt (by norm_num : (0 : ℝ) ≤ 180 / 91), hse, hpd]
      push_cast
      norm_num)
    monotone_const
    (by norm_num)
    (by norm_num)

/-- C4: on the spec's scenario-2 data, Welch's t-test of lines 122–126 has
unpooled standard error exactly 1, statistic exactly −10 (strongly
negative: A below B), Welch–Satterthwaite degrees of freedom exactly 8,
and a two-sided p-value below 0.001 for any CDF `T` satisfying the
Student-t(8) value `T(10) > 0.9995`.  Both groups have 5 ≥ 2
observations. -/
theorem c4_scenario2_welch_ttest (se : ℝ) (T : ℝ → ℝ)
    (hse0 : 0 ≤ se)
    (hse2 : se ^ 2 = ((welchSE2 groupA_arr groupB_arr : ℚ) : ℝ))
    (hT : (9995 / 10000 : ℝ) < T 10) :
    welchSE2 groupA_arr groupB_arr = 1 ∧
    (((listMean groupA_arr : ℚ) : ℝ) - ((listMean groupB_arr : ℚ) : ℝ)) / se = -10 ∧
    (((listMean groupA_arr : ℚ) : ℝ) - ((listMean groupB_arr : ℚ) : ℝ)) / se < 0 ∧
    welch_df groupA_arr groupB_arr = 8 ∧
    twoSidedP T ((((listMean groupA_arr : ℚ) : ℝ) - ((listMean groupB_arr : ℚ) : ℝ)) / se)
      < 1 / 1000 := by
  have hmA : listMean groupA_arr = 100 := by
    norm_num [listMean, groupA_arr]
  have hmB : listMean groupB_arr = 110 := by
    norm_num [listMean, groupB_arr]
  have hvA : sampleVar groupA_arr = 5 / 2 := by
    norm_num [sampleVar, listMean, groupA_arr]
  have hvB : sampleVar groupB_arr = 5 / 2 := by
    norm_num [sampleVar, listMean, groupB_arr]
  have hSE : welchSE2 groupA_arr groupB_arr = 1 := by
    unfold welchSE2
    rw [hvA, hvB]
    norm_num [groupA_arr, groupB_arr]
  have hseq : se = 1 := by
    rw [hSE] at hse2
    have hsq : se ^ 2 = 1 := by
      rw [hse2]
      norm_num
    have hfac : (se - 1) * (se + 1) = 0 := by linear_combination hsq
    rcases mul_eq_zero.mp hfac with h | h
    · linarith
    · linarith
  have ht : (((listMean groupA_arr : ℚ) : ℝ) - ((listMean groupB_arr : ℚ) : ℝ)) / se = -10 := by
    rw [hmA, hmB, hseq]
    norm_num
  have hp : twoSidedP T ((((listMean groupA_arr : ℚ) : ℝ) -
      ((listMean groupB_arr : ℚ) : ℝ)) / se) < 1 / 1000 := by
    rw [ht]
    unfold twoSidedP
    rw [show |(-10 : ℝ)| = 10 by norm_num]
    linarith
  have hdf : welch_df groupA_arr groupB_arr = 8 := by
    unfold welch_df welchSE2
    rw [hvA, hvB]
    norm_num [groupA_arr, groupB_arr]
  exact ⟨hSE, ht, by rw [ht]; norm_num, hdf, hp⟩

/-- Witness for C4: the standard error 1 satisfies its defining equation
and the constant CDF `0.9999` satisfies the Student-t hypothesis. -/
theorem c4_scenario2_witness :
    welchSE2 groupA_arr groupB_arr = 1 ∧
    (((listMean groupA_arr : ℚ) : ℝ) - ((listMean groupB_arr : ℚ) : ℝ)) / 1 = -10 ∧
    (((listMean groupA_arr : ℚ) : ℝ) - ((listMean groupB_arr : ℚ) : ℝ)) / 1 < 0 ∧
    welch_df groupA_arr groupB_arr = 8 ∧
    twoSidedP (fun _ => (9999 / 10000 : ℝ))
      ((((listMean groupA_arr : ℚ) : ℝ) - ((listMean groupB_arr : ℚ) : ℝ)) / 1)
      < 1 / 1000 :=
  c4_scenario2_welch_ttest 1 (fun _ => (9999 / 10000 : ℝ))
    (by norm_num)
    (by
      have hvA : sampleVar groupA_arr = 5 / 2 := by
        norm_num [sampleVar, listMean, groupA_arr]
      have hvB : sampleVar groupB_arr = 5 / 2 := by
        norm_num [sampleVar, listMean, groupB_arr]
      have hSE : welchSE2 groupA_arr groupB_arr = 1 := by
        unfold welchSE2
        rw [hvA, hvB]
        norm_num [groupA_arr, groupB_arr]
      rw [hSE]
      norm_num)
    (by norm_num)

/-- C8: for valid inputs (`0 ≤ k ≤ n`, `n > 0` per group, positive pooled
standard error), swapping the two groups leaves the pooled variance
unchanged, negates the proportion difference and hence the z-statistic,
and leaves the two-sided p-value identical for any CDF. -/
theorem c8_ztest_antisymmetric_under_swap
    (k1 k2 n1 n2 : ℚ) (se : ℝ) (Phi : ℝ → ℝ)
    (hk1 : 0 ≤ k1) (hk1n : k1 ≤ n1) (hk2 : 0 ≤ k2) (hk2n : k2 ≤ n2)
    (hn1 : 0 < n1) (hn2 : 0 < n2)
    (hse : 0 < se) (hse2 : se ^ 2 = ((pooledSE2 k1 k2 n1 n2 : ℚ) : ℝ)) :
    pooledSE2 k2 k1 n2 n1 = pooledSE2 k1 k2 n1 n2 ∧
    propDiff k2 k1 n2 n1 = -propDiff k1 k2 n1 n2 ∧
    ((propDiff k2 k1 n2 n1 : ℚ) : ℝ) / se = -(((propDiff k1 k2 n1 n2 : ℚ) : ℝ) / se) ∧
    twoSidedP Phi (((propDiff k2 k1 n2 n1 : ℚ) : ℝ) / se) =
      twoSidedP Phi (((propDiff k1 k2 n1 n2 : ℚ) : ℝ) / se) := by
  have hSE : pooledSE2 k2 k1 n2 n1 = pooledSE2 k1 k2 n1 n2 := by
    unfold pooledSE2 pooledProp
    rw [add_comm k2 k1, add_comm n2 n1, add_comm (1 / n2) (1 / n1)]
  have hPD : propDiff k2 k1 n2 n1 = -propDiff k1 k2 n1 n2 := by
    unfold propDiff
    ring
  have hz : ((propDiff k2 k1 n2 n1 : ℚ) : ℝ) / se =
      -(((propDiff k1 k2 n1 n2 : ℚ) : ℝ) / se) := by
    rw [hPD]
    push_cast
    ring
  refine ⟨hSE, hPD, hz, ?_⟩
  rw [hz]
  unfold twoSidedP
  rw [abs_neg]

/-- Witness for C8 at the scenario-1 inputs, with the z-test's actual
standard error `√(91/2000)` and the identity function as the CDF. -/
theorem c8_ztest_swap_witness :
    pooledSE2 5 8 10 10 = pooledSE2 8 5 10 10 ∧
    propDiff 5 8 10 10 = -propDiff 8 5 10 10 ∧
    ((propDiff 5 8 10 10 : ℚ) : ℝ) / Real.sqrt (91 / 2000) =
      -(((propDiff 8 5 10 10 : ℚ) : ℝ) / Real.sqrt (91 / 2000)) ∧
    twoSidedP (fun x => x) (((propDiff 5 8 10 10 : ℚ) : ℝ) / Real.sqrt (91 / 2000)) =
      twoSidedP (fun x => x) (((propDiff 8 5 10 10 : ℚ) : ℝ) / Real.sqrt (91 / 2000)) :=
  c8_ztest_antisymmetric_under_swap 8 5 10 10 (Real.sqrt (91 / 2000)) (fun x => x)
    (by norm_num) (by norm_num) (by norm_num) (by norm_num)
    (by norm_num) (by norm_num)
    (Real.sqrt_pos.mpr (by norm_num))
    (by
      have hse : pooledSE2 8 5 10 10 = 91 / 2000 := by
        norm_num [pooledSE2, pooledProp]
      rw [Real.sq_sqrt (by norm_num : (0 : ℝ) ≤ 91 / 2000), hse]
      norm_num)

/-- Nonnegativity of the Bessel-corrected sample variance for a column
with at least two observations. -/
lemma sampleVar_nonneg (xs : List ℚ) (h : 2 ≤ xs.length) : 0 ≤ sampleVar xs := by
  unfold sampleVar
  apply div_nonneg
  · apply List.sum_nonneg
    intro x hx
    obtain ⟨y, _, rfl⟩ := List.mem_map.mp hx
    positivity
  · have h2 : (2 : ℚ) ≤ (xs.length : ℚ) := by exact_mod_cast h
    linarith

/-- Algebraic core of the Welch–Satterthwaite degrees-of-freedom bounds:
for nonnegative per-group variance contributions `a = s₁²/n₁`, `b = s₂²/n₂`
that are not both zero, and per-group degrees of freedom `v1, v2 ≥ 1`, the
Satterthwaite ratio lies between `min v1 v2` and `v1 + v2`. -/
lemma satterthwaite_bounds (a b v1 v2 : ℚ) (ha : 0 ≤ a) (hb : 0 ≤ b)
    (h1 : 1 ≤ v1) (h2 : 1 ≤ v2) (hab : 0 < a + b) :
    min v1 v2 ≤ (a + b) ^ 2 / (a ^ 2 / v1 + b ^ 2 / v2) ∧
    (a + b) ^ 2 / (a ^ 2 / v1 + b ^ 2 / v2) ≤ v1 + v2 := by
  have hv1 : (0 : ℚ) < v1 := lt_of_lt_of_le one_pos h1
  have hv2 : (0 : ℚ) < v2 := lt_of_lt_of_le one_pos h2
  have hnum : 0 < a ^ 2 * v2 + b ^ 2 * v1 := by
    rcases lt_or_eq_of_le ha with ha' | ha'
    · nlinarith [mul_pos (pow_pos ha' 2) hv2, mul_nonneg (sq_nonneg b) hv1.le]
    · have hb' : 0 < b := by nlinarith
      nlinarith [mul_pos (pow_pos hb' 2) hv1, mul_nonneg (sq_nonneg a) hv2.le]
  have hrw : a ^ 2 / v1 + b ^ 2 / v2 = (a ^ 2 * v2 + b ^ 2 * v1) / (v1 * v2) := by
    field_simp
  have hvv : (0 : ℚ) < v1 * v2 := mul_pos hv1 hv2
  rw [hrw, div_div_eq_mul_div]
  constructor
  · rw [le_div_iff₀ hnum]
    rcases le_total v1 v2 with hc | hc
    · rw [min_eq_left hc]
      nlinarith [mul_nonneg (mul_nonneg ha hb) hvv.le,
        mul_nonneg (mul_nonneg (sq_nonneg b) hv1.le) (sub_nonneg.mpr hc)]
    · rw [min_eq_right hc]
      nlinarith [mul_nonneg (mul_nonneg ha hb) hvv.le,
        mul_nonneg (mul_nonneg (sq_nonneg a) hv2.le) (sub_nonneg.mpr hc)]
  · rw [div_le_iff₀ hnum]
    nlinarith [sq_nonneg (a * v2 - b * v1)]

/-- C9: for any two input columns with at least two observations each and
a non-degenerate standard error, the Welch–Satterthwaite degrees of
freedom lies between `min(n_A, n_B) - 1` and `n_A + n_B - 2` inclusive. -/
theorem c9_welch_df_between_bounds (xs ys : List ℚ)
    (hx : 2 ≤ xs.length) (hy : 2 ≤ ys.length)
    (hse : welchSE2 xs ys ≠ 0) :
    ((min xs.length ys.length : ℕ) : ℚ) - 1 ≤ welch_df xs ys ∧
    welch_df xs ys ≤ (xs.length : ℚ) + (ys.length : ℚ) - 2 := by
  have hxq : (2 : ℚ) ≤ (xs.length : ℚ) := by exact_mod_cast hx
  have hyq : (2 : ℚ) ≤ (ys.length : ℚ) := by exact_mod_cast hy
  have hxpos : (0 : ℚ) < (xs.length : ℚ) := by linarith
  have hypos : (0 : ℚ) < (ys.length : ℚ) := by linarith
  have ha : 0 ≤ sampleVar xs / (xs.length : ℚ) :=
    div_nonneg (sampleVar_nonneg xs hx) hxpos.le
  have hb : 0 ≤ sampleVar ys / (ys.length : ℚ) :=
    div_nonneg (sampleVar_nonneg ys hy) hypos.le
  have hab : 0 < sampleVar xs / (xs.length : ℚ) + sampleVar ys / (ys.length : ℚ) := by
    rcases lt_or_eq_of_le (add_nonneg ha hb) with h | h
    · exact h
    · exact absurd h.symm hse
  have h1 : (1 : ℚ) ≤ (xs.length : ℚ) - 1 := by linarith
  have h2 : (1 : ℚ) ≤ (ys.length : ℚ) - 1 := by linarith
  have hmain := satterthwaite_bounds (sampleVar xs / (xs.length : ℚ))
    (sampleVar ys / (ys.length : ℚ)) ((xs.length : ℚ) - 1) ((ys.length : ℚ) - 1)
    ha hb h1 h2 hab
  have hdf : welch_df xs ys =
      (sampleVar xs / (xs.length : ℚ) + sampleVar ys / (ys.length : ℚ)) ^ 2 /
        ((sampleVar xs / (xs.length : ℚ)) ^ 2 / ((xs.length : ℚ) - 1) +
          (sampleVar ys / (ys.length : ℚ)) ^ 2 / ((ys.length : ℚ) - 1)) := rfl
  constructor
  · rw [hdf]
    refine le_trans ?_ hmain.1
    have hcast : ((min xs.length ys.length : ℕ) : ℚ) =
        min ((xs.length : ℚ)) ((ys.length : ℚ)) := by
      exact @Nat.cast_min ℚ _ xs.length ys.length
    rw [hcast]
    rcases le_total ((xs.length : ℚ)) ((ys.length : ℚ)) with h | h
    · rw [min_eq_left h, min_eq_left (by linarith : (xs.length : ℚ) - 1 ≤ (ys.length : ℚ) - 1)]
    · rw [min_eq_right h, min_eq_right (by linarith : (ys.length : ℚ) - 1 ≤ (xs.length : ℚ) - 1)]
  · rw [hdf]
    refine le_trans hmain.2 ?_
    linarith

/-- Witness for C9 on the concrete columns `[0, 1]` and `[0, 2]`
(degrees of freedom strictly between the bounds is not required; here the
bounds are `1 ≤ df ≤ 2`). -/
theorem c9_welch_df_bounds_witness :
    ((min ([(0 : ℚ), 1].length) ([(0 : ℚ), 2].length) : ℕ) : ℚ) - 1 ≤
      welch_df [0, 1] [0, 2] ∧
    welch_df [0, 1] [0, 2] ≤
      (([(0 : ℚ), 1].length : ℚ)) + (([(0 : ℚ), 2].length : ℚ)) - 2 :=
  c9_welch_df_between_bounds [0, 1] [0, 2] (by norm_num) (by norm_num)
    (by norm_num [welchSE2, sampleVar, listMean])

end RenewalAnalysis
